import Mathlib

/-!
Shallow embedding of the food-facilities query service
(`src/models/schemas.py`, `src/utils/geo.py`,
`src/data_access/foodtruck_repository.py`,
`src/services/foodtruck_service.py`, `src/api/foodtrucks.py`).

Modeling conventions:
* Python floats are modeled as rationals; the value `float('inf')` that the
  distance function can return is modeled as the top element of `WithTop Rat`.
* Optional values (Pydantic `Optional[...]` fields, `None` coordinates) are
  modeled as `Option`.
* The geopy `geodesic(point1, point2).km` call is an external library call;
  it is modeled as an abstract parameter `geo` that either returns a finite
  rational number of kilometers or raises a `ValueError` (the exception type
  `calculate_distance` catches), modeled as `Except GeopyValueError Rat`.
* The SQLite store is modeled as a table of rows plus two failure flags, one
  for each statement executed inside `_execute_query` (the
  `PRAGMA database_list` call and the main `cursor.execute`); a raised
  `sqlite3.Error` on either is the `true` case of the corresponding flag.
  A `SELECT * FROM food_facilities WHERE ...` query is modeled as filtering
  the table with the Boolean predicate denoted by its WHERE clause, with SQL
  NULL semantics made explicit (a NULL column never satisfies `LOWER(col) = ?`
  or `LOWER(col) LIKE ?`). The LIKE patterns are interpolated from the query
  string without escaping, so `likeMatch` keeps the SQL meaning of the `%`
  and `_` wildcards, including wildcards occurring inside the query string.
* Python `list.sort(key=...)` is a stable ascending sort by the key; it is
  modeled by the stable insertion sort `sortByDistance` below.
-/

namespace FoodFacilities

/-- Embedding of the Pydantic model `FoodFacilityBase` from
`src/models/schemas.py`: one row of the `food_facilities` table.
`Union[str, int]` fields are modeled as sums. -/
structure FoodFacilityBase where
  locationid : Int
  Applicant : String
  FacilityType : Option String := none
  cnn : Option (String ⊕ Int) := none
  LocationDescription : Option String := none
  Address : Option String := none
  blocklot : Option String := none
  block : Option String := none
  lot : Option String := none
  permit : Option String := none
  Status : Option String := none
  FoodItems : Option String := none
  X : Option Rat := none
  Y : Option Rat := none
  Latitude : Option Rat := none
  Longitude : Option Rat := none
  Schedule : Option String := none
  dayshours : Option String := none
  NOISent : Option String := none
  Approved : Option String := none
  Received : Option (String ⊕ Int) := none
  PriorPermit : Option Int := none
  ExpirationDate : Option String := none
  Location : Option String := none
  Fire_Prevention_Districts : Option Int := none
  Police_Districts : Option Int := none
  Supervisor_Districts : Option Int := none
  Zip_Codes : Option Int := none
  Neighborhoods_old : Option String := none
  deriving DecidableEq

/-- Embedding of `FoodFacility` from `src/models/schemas.py`: extends the
base schema with no additional fields (`pass`). -/
structure FoodFacility extends FoodFacilityBase
  deriving DecidableEq

/-- Embedding of `FoodFacilityWithDistance` from `src/models/schemas.py`:
a facility together with the computed `distance_km`. The distance is in
`WithTop Rat` because `calculate_distance` can return `float('inf')`. -/
structure FoodFacilityWithDistance extends FoodFacility where
  distance_km : WithTop Rat
  deriving DecidableEq

/-- Model of the `ValueError` exception that geopy may raise and that
`calculate_distance` in `src/utils/geo.py` catches. -/
structure GeopyValueError where
  msg : String

/-- Abstract model of the external geopy call `geodesic(point1, point2).km`:
given the four finite coordinates it either returns the distance in
kilometers or raises a `ValueError`. -/
def GeodesicFn : Type := Rat → Rat → Rat → Rat → Except GeopyValueError Rat

/-- Embedding of `calculate_distance` from `src/utils/geo.py`.
If any of the four coordinates is `None`, returns `float('inf')` (here `⊤`).
Otherwise calls the geodesic library; a raised `ValueError` is caught and
converted to `float('inf')`. -/
def calculate_distance (geo : GeodesicFn) (lat1 lon1 lat2 lon2 : Option Rat) :
    WithTop Rat :=
  if lat1 = none ∨ lon1 = none ∨ lat2 = none ∨ lon2 = none then
    ⊤
  else
    match lat1, lon1, lat2, lon2 with
    | some a, some b, some c, some d =>
      match geo a b c d with
      | Except.ok v => (v : WithTop Rat)
      | Except.error _ => ⊤
    | _, _, _, _ => ⊤

/-- Model of the SQLite database handle used by `FoodFacilityRepository`:
the rows of the `food_facilities` table, plus one failure flag per statement
executed inside `_execute_query` (`true` means that statement raises
`sqlite3.Error`). -/
structure RecordStore where
  rows : List FoodFacilityBase
  pragmaFails : Bool := false
  queryFails : Bool := false

/-- Embedding of `FoodFacilityRepository._execute_query` from
`src/data_access/foodtruck_repository.py`: runs `PRAGMA database_list` and
then the SELECT (modeled by its WHERE-clause predicate); any `sqlite3.Error`
raised by either statement is caught and the method returns the empty list. -/
def executeQuery (store : RecordStore) (whereClause : FoodFacilityBase → Bool) :
    List FoodFacilityBase :=
  if store.pragmaFails then []
  else if store.queryFails then []
  else store.rows.filter whereClause

/-- ASCII lowercasing of a string, character by character: the meaning of
Python `str.lower()` and SQL `LOWER(...)` on the ASCII status and name data
of this dataset. -/
def lowerString (s : String) : String :=
  String.mk (s.data.map Char.toLower)

/-- Substring containment on character lists: `hasSub needle hay` is true
iff `needle` occurs contiguously inside `hay`. This is the spec-side
notion "contains q as a substring"; the code's LIKE query coincides with
it only for wildcard-free q (see `likeMatch_pattern_eq_hasSub`). -/
def hasSub (needle : List Char) : List Char → Bool
  | [] => needle.isEmpty
  | c :: rest => needle.isPrefixOf (c :: rest) || hasSub needle rest

/-- SQL LIKE wildcard matching zero or more characters. -/
def percentChar : Char := '%'

/-- SQL LIKE wildcard matching exactly one character. -/
def underscoreChar : Char := '_'

/-- All suffixes of a character list, longest first, ending with `[]`. -/
def suffixesOf : List Char → List (List Char)
  | [] => [[]]
  | c :: t => (c :: t) :: suffixesOf t

/-- SQL LIKE pattern matching against a whole string: `%` matches any
sequence of characters (modeled as matching the rest of the pattern
against some suffix), `_` matches exactly one character, every other
pattern character matches itself. This is the SQLite semantics of the
interpolated, unescaped pattern the repository builds. -/
def likeMatch : List Char → List Char → Bool
  | [], hay => hay.isEmpty
  | p :: ps, hay =>
    if p = percentChar then
      (suffixesOf hay).any (fun t => likeMatch ps t)
    else if p = underscoreChar then
      match hay with
      | [] => false
      | _ :: t => likeMatch ps t
    else
      match hay with
      | [] => false
      | c :: t => p == c && likeMatch ps t

/-- The pattern the repository interpolates for its substring searches:
the Python f-string `"%" + query.lower() + "%"`, with no escaping, so
wildcard characters inside the query string keep their LIKE meaning. -/
def likePatternOf (q : String) : List Char :=
  percentChar :: ((lowerString q).data ++ [percentChar])

/-- Absence of both SQL LIKE wildcards in a character list. -/
def noWildcards (needle : List Char) : Prop :=
  percentChar ∉ needle ∧ underscoreChar ∉ needle

instance (needle : List Char) : Decidable (noWildcards needle) :=
  inferInstanceAs (Decidable (percentChar ∉ needle ∧ underscoreChar ∉ needle))

/-- Meaning of the SQL condition `LOWER(Status) = ?` bound to
`status.lower()`, with SQL NULL semantics: a row with NULL `Status` never
matches. -/
def statusMatches (fb : FoodFacilityBase) (status : String) : Bool :=
  match fb.Status with
  | some st => lowerString st == lowerString status
  | none => false

/-- Meaning of the SQL condition
`Latitude IS NOT NULL AND Longitude IS NOT NULL`. -/
def hasCoordinates (fb : FoodFacilityBase) : Bool :=
  fb.Latitude.isSome && fb.Longitude.isSome

/-- Meaning of the SQL condition `LOWER(Applicant) LIKE ?` bound to
the pattern `"%" + name_query.lower() + "%"`. `Applicant` is NOT NULL. -/
def applicantLike (fb : FoodFacilityBase) (name_query : String) : Bool :=
  likeMatch (likePatternOf name_query) (lowerString fb.Applicant).data

/-- Meaning of the SQL condition `LOWER(Address) LIKE ?` bound to the
pattern `"%" + street_query.lower() + "%"`, with SQL NULL semantics. -/
def addressLike (fb : FoodFacilityBase) (street_query : String) : Bool :=
  match fb.Address with
  | some a => likeMatch (likePatternOf street_query) (lowerString a).data
  | none => false

/-- Embedding of `FoodFacilityRepository.get_all_facilities`. -/
def FoodFacilityRepository.get_all_facilities (store : RecordStore) :
    List FoodFacilityBase :=
  executeQuery store hasCoordinates

/-- Embedding of `FoodFacilityRepository.search_by_applicant_name`: the
status condition is appended only when `status` is truthy in Python, i.e.
not `None` and not the empty string. -/
def FoodFacilityRepository.search_by_applicant_name (store : RecordStore)
    (name_query : String) (status : Option String) : List FoodFacilityBase :=
  match status with
  | some s =>
    if s.isEmpty then
      executeQuery store (fun fb => applicantLike fb name_query)
    else
      executeQuery store (fun fb => applicantLike fb name_query && statusMatches fb s)
  | none => executeQuery store (fun fb => applicantLike fb name_query)

/-- Embedding of `FoodFacilityRepository.search_by_street_name`. -/
def FoodFacilityRepository.search_by_street_name (store : RecordStore)
    (street_query : String) : List FoodFacilityBase :=
  executeQuery store (fun fb => addressLike fb street_query)

/-- Embedding of `FoodFacilityRepository.get_facilities_by_status`. -/
def FoodFacilityRepository.get_facilities_by_status (store : RecordStore)
    (status : String) : List FoodFacilityBase :=
  executeQuery store (fun fb => statusMatches fb status && hasCoordinates fb)

/-- Embedding of `FoodFacilityRepository.get_all_facilities_with_location`. -/
def FoodFacilityRepository.get_all_facilities_with_location (store : RecordStore) :
    List FoodFacilityBase :=
  executeQuery store hasCoordinates

/-- Embedding of `FoodFacilityService.search_by_name`: fetches from the
repository and converts each `FoodFacilityBase` into a `FoodFacility`
with the same fields (`FoodFacility(**f.model_dump())`). -/
def FoodFacilityService.search_by_name (store : RecordStore)
    (applicant_name : String) (status : Option String) : List FoodFacility :=
  (FoodFacilityRepository.search_by_applicant_name store applicant_name status).map
    (fun fb => { toFoodFacilityBase := fb })

/-- Embedding of `FoodFacilityService.search_by_street`. -/
def FoodFacilityService.search_by_street (store : RecordStore)
    (street_name : String) : List FoodFacility :=
  (FoodFacilityRepository.search_by_street_name store street_name).map
    (fun fb => { toFoodFacilityBase := fb })

/-- Embedding of the candidate loop in `FoodFacilityService.find_nearest`:
for each fetched facility with both coordinates present, build a
`FoodFacilityWithDistance` carrying all fields of the facility
(`FoodFacilityWithDistance(**facility_base.model_dump(), distance_km=...)`)
and the computed distance; facilities missing a coordinate are skipped. -/
def attachDistances (geo : GeodesicFn) (lat lon : Rat) :
    List FoodFacilityBase → List FoodFacilityWithDistance
  | [] => []
  | fb :: rest =>
    match fb.Latitude, fb.Longitude with
    | some _, some _ =>
      { toFoodFacilityBase := fb,
        distance_km := calculate_distance geo (some lat) (some lon) fb.Latitude fb.Longitude }
        :: attachDistances geo lat lon rest
    | some _, none => attachDistances geo lat lon rest
    | none, _ => attachDistances geo lat lon rest

/-- Stable insertion step for the ascending sort by `distance_km`:
a new element is placed after every element with a strictly smaller
distance and before the first element whose distance is not smaller, so
elements with equal distance keep their relative order. -/
def insertByDistance (x : FoodFacilityWithDistance) :
    List FoodFacilityWithDistance → List FoodFacilityWithDistance
  | [] => [x]
  | y :: ys =>
    if y.distance_km < x.distance_km then y :: insertByDistance x ys
    else x :: y :: ys

/-- Model of the Python call
`facilities_with_distance.sort(key=lambda x: x.distance_km)`:
a stable ascending sort by `distance_km`. Python guarantees its sort is
stable and ascending by the key, which determines the output uniquely;
this stable insertion sort realizes the same specification. -/
def sortByDistance : List FoodFacilityWithDistance → List FoodFacilityWithDistance
  | [] => []
  | x :: xs => insertByDistance x (sortByDistance xs)

/-- Embedding of `FoodFacilityService.find_nearest` from
`src/services/foodtruck_service.py`: fetch by status (or all facilities
with location when status is `None`), attach distances, sort ascending by
distance, return the first `limit` entries. -/
def FoodFacilityService.find_nearest (store : RecordStore) (geo : GeodesicFn)
    (lat lon : Rat) (status : Option String := some "APPROVED") (limit : Nat := 5) :
    List FoodFacilityWithDistance :=
  let facilities_base :=
    match status with
    | some s => FoodFacilityRepository.get_facilities_by_status store s
    | none => FoodFacilityRepository.get_all_facilities_with_location store
  let facilities_with_distance := attachDistances geo lat lon facilities_base
  (sortByDistance facilities_with_distance).take limit

/-- Embedding of the `/foodtrucks/nearest` endpoint handler `find_nearest`
from `src/api/foodtrucks.py`: a truthy status different from `'all'`
case-insensitively is passed through, otherwise the service is called with
no status filter (`search_status = status if status and status.lower() !=
'all' else None`). -/
def api_find_nearest (store : RecordStore) (geo : GeodesicFn) (lat lon : Rat)
    (status : Option String := some "APPROVED") (limit : Nat := 5) :
    List FoodFacilityWithDistance :=
  let search_status :=
    match status with
    | some s => if ¬s.isEmpty ∧ lowerString s ≠ "all" then some s else none
    | none => none
  FoodFacilityService.find_nearest store geo lat lon search_status limit

/-- Eligible candidates of a nearest query at the service layer: the
facilities fetched from the repository that pass the defensive coordinate
re-check in the service loop. The result length of `find_nearest` is
`min limit` of the length of this list. -/
def eligibleCandidates (store : RecordStore) (status : Option String) :
    List FoodFacilityBase :=
  (match status with
    | some s => FoodFacilityRepository.get_facilities_by_status store s
    | none => FoodFacilityRepository.get_all_facilities_with_location store).filter
    (fun fb => fb.Latitude.isSome && fb.Longitude.isSome)

/-- Ascending comparison on the computed distance, the sort key of
`find_nearest`. -/
def distLE (a b : FoodFacilityWithDistance) : Prop :=
  a.distance_km ≤ b.distance_km

/-- Boolean test that a ranked result has a given distance value; used to
state stability of the sort. -/
def distEq (d : WithTop Rat) (x : FoodFacilityWithDistance) : Bool :=
  decide (x.distance_km = d)

theorem mem_insertByDistance {y x : FoodFacilityWithDistance}
    {l : List FoodFacilityWithDistance} :
    y ∈ insertByDistance x l ↔ y = x ∨ y ∈ l := by
  induction l with
  | nil => simp [insertByDistance]
  | cons z zs ih =>
    simp only [insertByDistance]
    split
    · simp only [List.mem_cons, ih]
      tauto
    · simp only [List.mem_cons]

theorem length_insertByDistance (x : FoodFacilityWithDistance)
    (l : List FoodFacilityWithDistance) :
    (insertByDistance x l).length = l.length + 1 := by
  induction l with
  | nil => rfl
  | cons z zs ih =>
    simp only [insertByDistance]
    split
    · simp [ih]
    · simp

theorem sorted_insertByDistance {x : FoodFacilityWithDistance}
    {l : List FoodFacilityWithDistance} (h : l.Pairwise distLE) :
    (insertByDistance x l).Pairwise distLE := by
  induction l with
  | nil => simp [insertByDistance, List.pairwise_singleton]
  | cons y ys ih =>
    rcases List.pairwise_cons.mp h with ⟨hy, hys⟩
    simp only [insertByDistance]
    split
    case isTrue hlt =>
      refine List.pairwise_cons.mpr ⟨?_, ih hys⟩
      intro z hz
      rcases mem_insertByDistance.mp hz with rfl | hz'
      · exact le_of_lt hlt
      · exact hy z hz'
    case isFalse hnlt =>
      refine List.pairwise_cons.mpr ⟨?_, h⟩
      intro z hz
      rcases List.mem_cons.mp hz with rfl | hz'
      · exact le_of_not_lt hnlt
      · exact le_trans (le_of_not_lt hnlt) (hy z hz')

theorem filter_insertByDistance (d : WithTop Rat) (x : FoodFacilityWithDistance)
    (l : List FoodFacilityWithDistance) :
    (insertByDistance x l).filter (distEq d) =
      if distEq d x then x :: l.filter (distEq d) else l.filter (distEq d) := by
  induction l with
  | nil =>
    by_cases hx : distEq d x <;> simp [insertByDistance, hx]
  | cons y ys ih =>
    simp only [insertByDistance]
    by_cases hlt : y.distance_km < x.distance_km
    · rw [if_pos hlt]
      by_cases hx : distEq d x
      · have hxd : x.distance_km = d := of_decide_eq_true hx
        have hy : distEq d y = false := by
          apply decide_eq_false
          intro hyd
          exact absurd (hxd ▸ hyd ▸ hlt) (lt_irrefl _)
        simp [List.filter_cons, hy, ih, hx]
      · simp [List.filter_cons, ih, hx]
    · rw [if_neg hlt]
      by_cases hx : distEq d x <;> simp [List.filter_cons, hx]

theorem sorted_sortByDistance (l : List FoodFacilityWithDistance) :
    (sortByDistance l).Pairwise distLE := by
  induction l with
  | nil => simp [sortByDistance]
  | cons x xs ih => exact sorted_insertByDistance ih

theorem length_sortByDistance (l : List FoodFacilityWithDistance) :
    (sortByDistance l).length = l.length := by
  induction l with
  | nil => rfl
  | cons x xs ih =>
    simp only [sortByDistance, length_insertByDistance, ih, List.length_cons]

theorem filter_sortByDistance (d : WithTop Rat) (l : List FoodFacilityWithDistance) :
    (sortByDistance l).filter (distEq d) = l.filter (distEq d) := by
  induction l with
  | nil => rfl
  | cons x xs ih =>
    simp only [sortByDistance, filter_insertByDistance, ih, List.filter_cons]

theorem mem_sortByDistance {x : FoodFacilityWithDistance}
    {l : List FoodFacilityWithDistance} :
    x ∈ sortByDistance l ↔ x ∈ l := by
  induction l with
  | nil => simp [sortByDistance]
  | cons y ys ih =>
    simp only [sortByDistance, mem_insertByDistance, ih, List.mem_cons]

theorem mem_executeQuery {store : RecordStore} {f : FoodFacilityBase → Bool}
    {fb : FoodFacilityBase} (h : fb ∈ executeQuery store f) :
    fb ∈ store.rows ∧ f fb = true := by
  unfold executeQuery at h
  split at h
  · simp at h
  · split at h
    · simp at h
    · exact List.mem_filter.mp h

theorem length_attachDistances (geo : GeodesicFn) (lat lon : Rat)
    (l : List FoodFacilityBase) :
    (attachDistances geo lat lon l).length =
      (l.filter (fun fb => fb.Latitude.isSome && fb.Longitude.isSome)).length := by
  induction l with
  | nil => rfl
  | cons fb rest ih =>
    rcases hLa : fb.Latitude with _ | la <;> rcases hLo : fb.Longitude with _ | lo <;>
      simp [attachDistances, hLa, hLo, List.filter_cons, ih]

theorem mem_attachDistances {geo : GeodesicFn} {lat lon : Rat}
    {l : List FoodFacilityBase} {r : FoodFacilityWithDistance}
    (h : r ∈ attachDistances geo lat lon l) :
    ∃ fb ∈ l,
      r = { toFoodFacility := { toFoodFacilityBase := fb },
            distance_km :=
              calculate_distance geo (some lat) (some lon) fb.Latitude fb.Longitude } := by
  induction l with
  | nil => simp [attachDistances] at h
  | cons fb rest ih =>
    rcases hLa : fb.Latitude with _ | la <;> rcases hLo : fb.Longitude with _ | lo <;>
      simp only [attachDistances, hLa, hLo] at h
    case none.none | none.some | some.none =>
      obtain ⟨fb', hmem, heq⟩ := ih h
      exact ⟨fb', List.mem_cons_of_mem _ hmem, heq⟩
    case some.some =>
      rcases List.mem_cons.mp h with heq | htail
      · refine ⟨fb, List.mem_cons_self _ _, ?_⟩
        rw [heq, hLa, hLo]
      · obtain ⟨fb', hmem, heq⟩ := ih htail
        exact ⟨fb', List.mem_cons_of_mem _ hmem, heq⟩

theorem suffixesOf_any_isEmpty (hay : List Char) :
    (suffixesOf hay).any (fun t => t.isEmpty) = true := by
  induction hay with
  | nil => rfl
  | cons c t ih => simp [suffixesOf, ih]

theorem likeMatch_percent_nilPattern (hay : List Char) :
    likeMatch [percentChar] hay = true := by
  simp only [likeMatch, if_pos rfl]
  exact suffixesOf_any_isEmpty hay

theorem likeMatch_append_percent :
    ∀ needle : List Char, noWildcards needle →
      ∀ hay, likeMatch (needle ++ [percentChar]) hay = needle.isPrefixOf hay := by
  intro needle
  induction needle with
  | nil =>
    intro _ hay
    simp only [List.nil_append, likeMatch_percent_nilPattern, List.isPrefixOf]
  | cons a ns ih =>
    intro hw hay
    obtain ⟨hp, hu⟩ := hw
    rw [List.mem_cons, not_or] at hp hu
    have ha1 : ¬a = percentChar := fun h => hp.1 h.symm
    have ha2 : ¬a = underscoreChar := fun h => hu.1 h.symm
    have ih' := ih ⟨hp.2, hu.2⟩
    cases hay with
    | nil =>
      simp only [List.cons_append, likeMatch, if_neg ha1, if_neg ha2, List.isPrefixOf]
    | cons c t =>
      simp only [List.cons_append, likeMatch, if_neg ha1, if_neg ha2,
        List.append_eq, ih' t, List.isPrefixOf]

theorem any_isPrefixOf_suffixesOf (needle : List Char) :
    ∀ hay, (suffixesOf hay).any (fun t => needle.isPrefixOf t) = hasSub needle hay := by
  intro hay
  induction hay with
  | nil =>
    cases needle <;> simp [suffixesOf, hasSub, List.isPrefixOf, List.isEmpty]
  | cons c t ih =>
    simp only [suffixesOf, hasSub, List.any_cons, ih]

theorem likeMatch_pattern_eq_hasSub {needle : List Char} (hw : noWildcards needle)
    (hay : List Char) :
    likeMatch (percentChar :: (needle ++ [percentChar])) hay = hasSub needle hay := by
  have hA := likeMatch_append_percent needle hw
  simp only [likeMatch, if_pos rfl, hA]
  exact any_isPrefixOf_suffixesOf needle hay

theorem applicantLike_eq_hasSub {q : String} (hw : noWildcards (lowerString q).data)
    (fb : FoodFacilityBase) :
    applicantLike fb q = hasSub (lowerString q).data (lowerString fb.Applicant).data :=
  likeMatch_pattern_eq_hasSub hw (lowerString fb.Applicant).data

theorem find_nearest_eq (store : RecordStore) (geo : GeodesicFn) (lat lon : Rat)
    (status : Option String) (limit : Nat) :
    FoodFacilityService.find_nearest store geo lat lon status limit =
      (sortByDistance (attachDistances geo lat lon
        (match status with
         | some s => FoodFacilityRepository.get_facilities_by_status store s
         | none => FoodFacilityRepository.get_all_facilities_with_location store))).take
        limit := rfl

theorem find_nearest_some_eq (store : RecordStore) (geo : GeodesicFn) (lat lon : Rat)
    (s : String) (limit : Nat) :
    FoodFacilityService.find_nearest store geo lat lon (some s) limit =
      (sortByDistance (attachDistances geo lat lon
        (FoodFacilityRepository.get_facilities_by_status store s))).take limit := rfl

theorem find_nearest_none_eq (store : RecordStore) (geo : GeodesicFn) (lat lon : Rat)
    (limit : Nat) :
    FoodFacilityService.find_nearest store geo lat lon none limit =
      (sortByDistance (attachDistances geo lat lon
        (FoodFacilityRepository.get_all_facilities_with_location store))).take limit := rfl

theorem api_resolve_concrete {s : String} (h1 : s.isEmpty = false)
    (h2 : lowerString s ≠ "all") (store : RecordStore) (geo : GeodesicFn)
    (lat lon : Rat) (limit : Nat) :
    api_find_nearest store geo lat lon (some s) limit =
      FoodFacilityService.find_nearest store geo lat lon (some s) limit := by
  simp only [api_find_nearest]
  rw [if_pos]
  exact ⟨by simp [h1], h2⟩

/-- Concrete facility record used by the evaluation witnesses; fields not
given are absent. -/
def mkFacility (id : Int) (name : String) (st : Option String)
    (la lo : Option Rat) : FoodFacilityBase :=
  { locationid := id, Applicant := name, Status := st, Latitude := la, Longitude := lo }

/-- Concrete geodesic function used by the evaluation witnesses: returns the
latitude of the second point as the distance. -/
def coordGeo : GeodesicFn := fun _ _ c _ => Except.ok c

/-- Concrete store used by the evaluation witnesses: two geolocated
facilities of different statuses and one facility without a latitude. -/
def sampleStore : RecordStore :=
  { rows :=
      [ mkFacility 1 "Alpha Cafe" (some "APPROVED") (some 3) (some 10),
        mkFacility 2 "Beta Truck" (some "EXPIRED") (some 1) (some 20),
        mkFacility 3 "Gamma Grill" (some "APPROVED") none (some 30) ] }

/-- Claim C3: for every call to the distance function, if any of the four
coordinate inputs is absent, the function returns positive infinity rather
than failing, and this holds for each of the four positions independently
(the other three inputs are arbitrary). -/
theorem C3_distance_infinite_on_absent_coordinate (geo : GeodesicFn)
    (lat1 lon1 lat2 lon2 : Option Rat) :
    calculate_distance geo none lon1 lat2 lon2 = ⊤ ∧
    calculate_distance geo lat1 none lat2 lon2 = ⊤ ∧
    calculate_distance geo lat1 lon1 none lon2 = ⊤ ∧
    calculate_distance geo lat1 lon1 lat2 none = ⊤ := by
  refine ⟨?_, ?_, ?_, ?_⟩ <;> simp [calculate_distance]

/-- Claim C6: if the geodesic computation raises a numerical error
(a `ValueError`, the exception type the geopy call is documented to raise
and the only one `calculate_distance` needs to catch), the distance
function catches it and returns positive infinity; by construction the
function is total, so no such error propagates to its caller. -/
theorem C6_distance_catches_geodesic_error (geo : GeodesicFn) (a b c d : Rat)
    (e : GeopyValueError) (h : geo a b c d = Except.error e) :
    calculate_distance geo (some a) (some b) (some c) (some d) = ⊤ := by
  simp [calculate_distance, h]

/-- Geodesic function that always raises, used by the witness of the
error-catching claim. -/
def failingGeo : GeodesicFn := fun _ _ _ _ => Except.error { msg := "antipodal" }

theorem C6_distance_catches_geodesic_error_witness :
    failingGeo 1 2 3 4 = Except.error { msg := "antipodal" } ∧
    calculate_distance failingGeo (some 1) (some 2) (some 3) (some 4) = ⊤ :=
  ⟨rfl, C6_distance_catches_geodesic_error failingGeo 1 2 3 4 { msg := "antipodal" } rfl⟩

/-- Claim C5: for every repository read operation, a query failure raised by
the storage engine (either of the two statements `_execute_query` runs) is
caught inside the repository and surfaced as an empty result list; the
methods are total, so the failure is never propagated to the caller. -/
theorem C5_repository_failure_yields_empty (store : RecordStore)
    (h : store.pragmaFails = true ∨ store.queryFails = true) :
    (∀ f, executeQuery store f = []) ∧
    FoodFacilityRepository.get_all_facilities store = [] ∧
    FoodFacilityRepository.get_all_facilities_with_location store = [] ∧
    (∀ s, FoodFacilityRepository.get_facilities_by_status store s = []) ∧
    (∀ q st, FoodFacilityRepository.search_by_applicant_name store q st = []) ∧
    (∀ q, FoodFacilityRepository.search_by_street_name store q = []) := by
  have hq : ∀ f, executeQuery store f = [] := by
    intro f
    unfold executeQuery
    rcases h with h | h <;> simp [h]
  refine ⟨hq, hq _, hq _, fun s => hq _, fun q st => ?_, fun q => hq _⟩
  cases st with
  | none => exact hq _
  | some s =>
    simp only [FoodFacilityRepository.search_by_applicant_name]
    split <;> exact hq _

/-- Store whose SELECT statements raise `sqlite3.Error`, used by the witness
of the fail-open claim. -/
def failStore : RecordStore :=
  { rows := [mkFacility 1 "Alpha Cafe" (some "APPROVED") (some 3) (some 10)],
    queryFails := true }

theorem C5_repository_failure_yields_empty_witness :
    (failStore.pragmaFails = true ∨ failStore.queryFails = true) ∧
    FoodFacilityRepository.get_facilities_by_status failStore "APPROVED" = [] ∧
    FoodFacilityRepository.search_by_applicant_name failStore "alpha" (some "APPROVED") = [] :=
  ⟨Or.inr rfl,
   (C5_repository_failure_yields_empty failStore (Or.inr rfl)).2.2.2.1 "APPROVED",
   (C5_repository_failure_yields_empty failStore (Or.inr rfl)).2.2.2.2.1 "alpha" (some "APPROVED")⟩

/-- Claim C10: an empty status string disables status filtering entirely.
At the nearest endpoint an empty status resolves to no filter, the same
resolution as the `all` sentinel and as an absent status; in the name
search the repository appends no status condition when the status string
is empty. -/
theorem C10_empty_status_no_filter (store : RecordStore) (geo : GeodesicFn)
    (lat lon : Rat) (limit : Nat) (q : String) :
    api_find_nearest store geo lat lon (some "") limit =
      FoodFacilityService.find_nearest store geo lat lon none limit ∧
    api_find_nearest store geo lat lon (some "") limit =
      api_find_nearest store geo lat lon (some "all") limit ∧
    api_find_nearest store geo lat lon (some "") limit =
      api_find_nearest store geo lat lon none limit ∧
    FoodFacilityRepository.search_by_applicant_name store q (some "") =
      FoodFacilityRepository.search_by_applicant_name store q none ∧
    FoodFacilityService.search_by_name store q (some "") =
      FoodFacilityService.search_by_name store q none :=
  ⟨rfl, rfl, rfl, rfl, rfl⟩

/-- Claim C1: for every nearest query (reference point, status filter,
limit), the returned list is sorted ascending by the computed distance:
whenever two adjacent positions exist, the distance at position i is at
most the distance at position i + 1. -/
theorem C1_nearest_results_sorted_by_distance (store : RecordStore)
    (geo : GeodesicFn) (lat lon : Rat) (status : Option String) (limit : Nat)
    (i : Nat) (h : i + 1 < (api_find_nearest store geo lat lon status limit).length) :
    ((api_find_nearest store geo lat lon status limit).get
        ⟨i, Nat.lt_of_succ_lt h⟩).distance_km ≤
      ((api_find_nearest store geo lat lon status limit).get ⟨i + 1, h⟩).distance_km := by
  have hs : (api_find_nearest store geo lat lon status limit).Pairwise distLE := by
    simp only [api_find_nearest, find_nearest_eq]
    exact List.Pairwise.sublist (List.take_sublist _ _) (sorted_sortByDistance _)
  exact List.pairwise_iff_get.mp hs ⟨i, Nat.lt_of_succ_lt h⟩ ⟨i + 1, h⟩ (Nat.lt_succ_self i)

theorem C1_nearest_results_sorted_by_distance_witness :
    0 + 1 < (api_find_nearest sampleStore coordGeo 0 0 (some "all") 5).length ∧
    ((api_find_nearest sampleStore coordGeo 0 0 (some "all") 5).get
        ⟨0, by decide⟩).distance_km ≤
      ((api_find_nearest sampleStore coordGeo 0 0 (some "all") 5).get
        ⟨0 + 1, by decide⟩).distance_km :=
  ⟨by decide,
   C1_nearest_results_sorted_by_distance sampleStore coordGeo 0 0 (some "all") 5 0 (by decide)⟩

/-- Claim C2: for every nearest query with limit at least 1 (validated at
the transport boundary and assumed here as a precondition), the result
length equals the minimum of the limit and the number of eligible
candidates. -/
theorem C2_nearest_limit_respected (store : RecordStore) (geo : GeodesicFn)
    (lat lon : Rat) (status : Option String) (limit : Nat) (_h : 1 ≤ limit) :
    (FoodFacilityService.find_nearest store geo lat lon status limit).length =
      min limit (eligibleCandidates store status).length := by
  rw [find_nearest_eq, List.length_take, length_sortByDistance, length_attachDistances]
  rfl

theorem C2_nearest_limit_respected_witness :
    1 ≤ 5 ∧
    (FoodFacilityService.find_nearest sampleStore coordGeo 0 0 none 5).length =
      min 5 (eligibleCandidates sampleStore none).length :=
  ⟨by decide, C2_nearest_limit_respected sampleStore coordGeo 0 0 none 5 (by decide)⟩

/-- Claim C4: when the nearest endpoint is given a concrete status (neither
empty nor the `all` sentinel), every returned record carries a status equal
to it case-insensitively; when the status is `all` case-insensitively or
absent, the orchestrator is invoked with no status filter. -/
theorem C4_nearest_status_filter_correct (store : RecordStore) (geo : GeodesicFn)
    (lat lon : Rat) (limit : Nat) (s : String)
    (h1 : s.isEmpty = false) (h2 : lowerString s ≠ "all") :
    (∀ r ∈ api_find_nearest store geo lat lon (some s) limit,
       ∃ st, r.Status = some st ∧ lowerString st = lowerString s) ∧
    (∀ s2, lowerString s2 = "all" →
       api_find_nearest store geo lat lon (some s2) limit =
         FoodFacilityService.find_nearest store geo lat lon none limit) ∧
    api_find_nearest store geo lat lon none limit =
      FoodFacilityService.find_nearest store geo lat lon none limit := by
  refine ⟨?_, ?_, rfl⟩
  · intro r hr
    rw [api_resolve_concrete h1 h2, find_nearest_some_eq] at hr
    obtain ⟨fb, hmem, rfl⟩ :=
      mem_attachDistances (mem_sortByDistance.mp (List.mem_of_mem_take hr))
    obtain ⟨-, hf⟩ := mem_executeQuery hmem
    have hsm : statusMatches fb s = true := by
      simp only [Bool.and_eq_true] at hf
      exact hf.1
    unfold statusMatches at hsm
    rcases hst : fb.Status with _ | st
    · rw [hst] at hsm
      simp at hsm
    · rw [hst] at hsm
      exact ⟨st, rfl, eq_of_beq hsm⟩
  · intro s2 h
    simp only [api_find_nearest]
    rw [if_neg (fun hc => hc.2 h)]

theorem C4_nearest_status_filter_correct_witness :
    "Approved".isEmpty = false ∧ lowerString "Approved" ≠ "all" ∧
    (∃ st,
      ({ toFoodFacility :=
           { toFoodFacilityBase := mkFacility 1 "Alpha Cafe" (some "APPROVED") (some 3) (some 10) },
         distance_km := (3 : WithTop Rat) } : FoodFacilityWithDistance).Status = some st ∧
        lowerString st = lowerString "Approved") :=
  ⟨rfl, by decide,
   (C4_nearest_status_filter_correct sampleStore coordGeo 0 0 5 "Approved" rfl
       (by decide)).1 _ (by decide)⟩

/-- Claim C7: candidates with equal computed distance appear in the output
in the same relative order in which the repository returned them: for every
distance value d, the output entries at distance d form a subsequence, in
order, of the repository-ordered candidate list restricted to distance d
(stable sort, no secondary key). -/
theorem C7_nearest_ties_stable (store : RecordStore) (geo : GeodesicFn)
    (lat lon : Rat) (status : Option String) (limit : Nat) (d : WithTop Rat) :
    List.Sublist
      ((FoodFacilityService.find_nearest store geo lat lon status limit).filter (distEq d))
      ((attachDistances geo lat lon
        (match status with
         | some s => FoodFacilityRepository.get_facilities_by_status store s
         | none => FoodFacilityRepository.get_all_facilities_with_location store)).filter
        (distEq d)) := by
  rw [find_nearest_eq]
  conv_rhs => rw [← filter_sortByDistance d]
  exact List.Sublist.filter _ (List.take_sublist _ _)

/-- Claim C9: every ranked result returned by the orchestrator is exactly a
facility record fetched from the repository with all fields unchanged,
augmented only with the computed `distance_km`. -/
theorem C9_ranked_result_preserves_record (store : RecordStore) (geo : GeodesicFn)
    (lat lon : Rat) (status : Option String) (limit : Nat)
    (r : FoodFacilityWithDistance)
    (hr : r ∈ FoodFacilityService.find_nearest store geo lat lon status limit) :
    ∃ fb ∈ (match status with
      | some s => FoodFacilityRepository.get_facilities_by_status store s
      | none => FoodFacilityRepository.get_all_facilities_with_location store),
      r = { toFoodFacility := { toFoodFacilityBase := fb },
            distance_km :=
              calculate_distance geo (some lat) (some lon) fb.Latitude fb.Longitude } := by
  rw [find_nearest_eq] at hr
  exact mem_attachDistances (mem_sortByDistance.mp (List.mem_of_mem_take hr))

theorem C9_ranked_result_preserves_record_witness :
    ({ toFoodFacility :=
         { toFoodFacilityBase := mkFacility 2 "Beta Truck" (some "EXPIRED") (some 1) (some 20) },
       distance_km := (1 : WithTop Rat) } : FoodFacilityWithDistance) ∈
        FoodFacilityService.find_nearest sampleStore coordGeo 0 0 none 5 ∧
    ∃ fb ∈ FoodFacilityRepository.get_all_facilities_with_location sampleStore,
      ({ toFoodFacility :=
           { toFoodFacilityBase := mkFacility 2 "Beta Truck" (some "EXPIRED") (some 1) (some 20) },
         distance_km := (1 : WithTop Rat) } : FoodFacilityWithDistance) =
        { toFoodFacility := { toFoodFacilityBase := fb },
          distance_km := calculate_distance coordGeo (some 0) (some 0) fb.Latitude fb.Longitude } :=
  ⟨by decide,
   C9_ranked_result_preserves_record sampleStore coordGeo 0 0 none 5 _ (by decide)⟩

/-- Facility whose applicant name is matched by the LIKE wildcard query
`a_b` although it does not contain `a_b` as a substring; used by the
counterexample to the unrestricted name-search characterization. -/
def axbFacility : FoodFacilityBase :=
  mkFacility 7 "AXB Cafe" (some "APPROVED") none none

/-- Store holding only `axbFacility`. -/
def wildcardStore : RecordStore := { rows := [axbFacility] }

/-- Claim C8 (counterexample): the unrestricted claim is false for a query
string containing a SQL LIKE wildcard. The repository interpolates the
query into the LIKE pattern without escaping, so searching for the string
`a_b` returns the facility named `AXB Cafe` (the `_` matches the `x`),
although that name does not contain `a_b` as a case-insensitive substring,
refuting "the returned facilities are exactly those whose applicant name
contains q as a case-insensitive substring" at this input. -/
theorem C8_name_search_characterization_counterexample :
    FoodFacilityService.search_by_name wildcardStore "a_b" none =
      [{ toFoodFacilityBase := axbFacility }] ∧
    hasSub (lowerString "a_b").data (lowerString axbFacility.Applicant).data = false :=
  ⟨by decide, by decide⟩

/-- Claim C8 (amended): for every name-search query string q whose
lowercased form contains no SQL LIKE wildcard (`%` or `_`), and a given
non-empty status, the service returns exactly the stored facilities whose
applicant name contains q as a case-insensitive substring and whose status
matches the given one case-insensitively; with no status given, exactly
those whose applicant name contains q, with no status restriction. For
wildcard-containing q the unescaped interpolated pattern applies SQL
wildcard semantics instead (see the counterexample). Assumes the storage
engine does not fail (failures are the subject of the fail-open claim). -/
theorem C8_name_search_characterization (store : RecordStore) (q : String)
    (s : String) (hw : noWildcards (lowerString q).data)
    (hp : store.pragmaFails = false) (hq : store.queryFails = false)
    (hs : s.isEmpty = false) :
    FoodFacilityService.search_by_name store q (some s) =
      (store.rows.filter (fun fb =>
        hasSub (lowerString q).data (lowerString fb.Applicant).data &&
          statusMatches fb s)).map
        (fun fb => { toFoodFacilityBase := fb }) ∧
    FoodFacilityService.search_by_name store q none =
      (store.rows.filter (fun fb =>
        hasSub (lowerString q).data (lowerString fb.Applicant).data)).map
        (fun fb => { toFoodFacilityBase := fb }) := by
  have hrw := applicantLike_eq_hasSub hw
  constructor <;>
    simp [FoodFacilityService.search_by_name,
      FoodFacilityRepository.search_by_applicant_name, executeQuery, hp, hq, hs, hrw]

theorem C8_name_search_characterization_witness :
    noWildcards (lowerString "alpha").data ∧
    sampleStore.pragmaFails = false ∧ sampleStore.queryFails = false ∧
    "Approved".isEmpty = false ∧
    FoodFacilityService.search_by_name sampleStore "alpha" (some "Approved") =
      (sampleStore.rows.filter
        (fun fb => hasSub (lowerString "alpha").data (lowerString fb.Applicant).data &&
          statusMatches fb "Approved")).map
        (fun fb => { toFoodFacilityBase := fb }) ∧
    FoodFacilityService.search_by_name sampleStore "alpha" (some "Approved") =
      [{ toFoodFacilityBase := mkFacility 1 "Alpha Cafe" (some "APPROVED") (some 3) (some 10) }] :=
  ⟨by decide, rfl, rfl, rfl,
   (C8_name_search_characterization sampleStore "alpha" "Approved" (by decide) rfl rfl rfl).1,
   by decide⟩

end FoodFacilities
